import Mathlib

/-!
# Verification of the obsidian-webpage-export validation / export pipeline

A shallow embedding, in Lean, of the parts of the plugin that the
specification's claims are about:

* `VaultValidator` (src/plugin/docker/vault-validator.ts) — vault structure
  validation over an abstract filesystem snapshot;
* `validateWebConfig` / `DEFAULT_WEB_CONFIG` / `DockerConfigLoader`
  (web-config.ts, docker-config-loader.ts) — configuration model, environment
  overlay and validation;
* `DockerLogger` (docker-logger.ts) — leveled logging;
* `WebExportManager` (web-export-manager.ts) — export run, cleanup of old
  files, render-batch bracketing;
* `EnhancedDockerIntegration` / `runDockerExport` — the Docker CLI entry
  point and its exit code.

Filesystem reads, the JSON parser, wall-clock timestamps and the host
renderer are modelled as explicit inputs (snapshots / outcome oracles);
everything else is translated directly from the TypeScript source.
-/

/-! ## Filesystem snapshot

The validator only observes the filesystem through `existsSync`, `statSync`
(`isDirectory` / `size`), `readdirSync`, and `readFileSync` followed by
`JSON.parse`.  A snapshot is a tree of named entries; a file carries its
byte size and whether its contents parse as JSON (the one observation
`validateJsonFile` makes of file contents). -/

mutual

inductive FSEntry where
  | file (size : Nat) (jsonValid : Bool)
  | dir (entries : FSEntries)

inductive FSEntries where
  | nil
  | cons (name : String) (entry : FSEntry) (rest : FSEntries)

end

/-- Directory lookup of one name (`existsSync`/`statSync` on a child path). -/
def findEntry : FSEntries → String → Option FSEntry
  | .nil, _ => none
  | .cons name e rest, target => if name = target then some e else findEntry rest target

/-- Child of an optional entry: resolving one more path component.  A path
under a missing entry or under a plain file does not exist. -/
def childOf (o : Option FSEntry) (name : String) : Option FSEntry :=
  match o with
  | some (.dir es) => findEntry es name
  | _ => none

/-- Children of an entry (used once an entry is known to exist). -/
def entryChild (e : FSEntry) (name : String) : Option FSEntry :=
  match e with
  | .dir es => findEntry es name
  | .file _ _ => none

/-- `path.join(a, b)` (POSIX separator, as in the Docker container). -/
def joinPath (a b : String) : String := a ++ "/" ++ b

mutual

/-- `VaultValidator.countFilesWithExtension`: recursive count of files whose
name ends with `extension`; dot-directories are not descended into (the
guard `!existsSync(dir) || !statSync(dir).isDirectory()` is the
`.file` case returning 0). -/
def countFilesWithExtension (extension : String) : FSEntry → Nat
  | .file _ _ => 0
  | .dir es => countFilesWithExtensionEntries extension es

def countFilesWithExtensionEntries (extension : String) : FSEntries → Nat
  | .nil => 0
  | .cons name e rest =>
      (match e with
       | .dir _ =>
           if name.startsWith "." then 0 else countFilesWithExtension extension e
       | .file _ _ => if name.endsWith extension then 1 else 0)
      + countFilesWithExtensionEntries extension rest

end

/-- Top-level call of `countFilesWithExtension` on the vault path (which may
not exist). -/
def countFilesWithExtensionRoot (extension : String) : Option FSEntry → Nat
  | some e => countFilesWithExtension extension e
  | none => 0

/-- `VaultValidator.countFilesInDirectory`: non-recursive count of plain
files; 0 when the path is missing or not a directory. -/
def countFilesInDirectory : Option FSEntry → Nat
  | some (.dir es) => countFilesShallow es
  | _ => 0
where
  countFilesShallow : FSEntries → Nat
  | .nil => 0
  | .cons _ e rest =>
      (match e with | .file _ _ => 1 | .dir _ => 0) + countFilesShallow rest

mutual

/-- `VaultValidator.getDirectorySize`: recursive byte total.  On a plain
file the source's `readdirSync` throws and the catch leaves the total at 0. -/
def getDirectorySize : FSEntry → Nat
  | .file _ _ => 0
  | .dir es => getDirectorySizeEntries es

def getDirectorySizeEntries : FSEntries → Nat
  | .nil => 0
  | .cons _ e rest =>
      (match e with
       | .dir _ => getDirectorySize e
       | .file size _ => size)
      + getDirectorySizeEntries rest

end

/-- Top-level directory size of the vault path. -/
def getDirectorySizeRoot : Option FSEntry → Nat
  | some e => getDirectorySize e
  | none => 0

mutual

/-- `VaultValidator.getMaxDirectoryDepth`: deepest directory nesting,
skipping dot-entries. -/
def getMaxDirectoryDepth : FSEntry → Nat → Nat
  | .file _ _, currentDepth => currentDepth
  | .dir es, currentDepth => getMaxDepthEntries es currentDepth

def getMaxDepthEntries : FSEntries → Nat → Nat
  | .nil, currentDepth => currentDepth
  | .cons name e rest, currentDepth =>
      let m := getMaxDepthEntries rest currentDepth
      match e with
      | .dir _ =>
          if name.startsWith "." then m
          else Nat.max m (getMaxDirectoryDepth e (currentDepth + 1))
      | .file _ _ => m

end

/-- Top-level depth of the vault path. -/
def getMaxDirectoryDepthRoot : Option FSEntry → Nat
  | some e => getMaxDirectoryDepth e 0
  | none => 0

mutual

/-- `VaultValidator.findLargeFiles`: files strictly larger than the
threshold, with vault-relative paths; dot-entries are skipped. -/
def findLargeFiles (sizeThreshold : Nat) (relPath : String) : FSEntry → List (String × Nat)
  | .file _ _ => []
  | .dir es => findLargeFilesEntries sizeThreshold relPath es

def findLargeFilesEntries (sizeThreshold : Nat) (relPath : String) :
    FSEntries → List (String × Nat)
  | .nil => []
  | .cons name e rest =>
      (if name.startsWith "." then []
       else
         match e with
         | .dir _ =>
             findLargeFiles sizeThreshold
               (if relPath = "" then name else relPath ++ "/" ++ name) e
         | .file size _ =>
             if size > sizeThreshold then
               [(if relPath = "" then name else relPath ++ "/" ++ name, size)]
             else [])
      ++ findLargeFilesEntries sizeThreshold relPath rest

end

/-- Top-level large-file scan of the vault path. -/
def findLargeFilesRoot (sizeThreshold : Nat) : Option FSEntry → List (String × Nat)
  | some e => findLargeFiles sizeThreshold "" e
  | none => []

/-! ## ValidationResult data model (vault-validator.ts lines 9-28) -/

inductive Severity where
  | error
  | warning
deriving DecidableEq, Repr

structure ValidationError where
  code : String
  message : String
  path : Option String
  severity : Severity
deriving Repr, DecidableEq

structure ValidationWarning where
  code : String
  message : String
  path : Option String
  suggestion : Option String
deriving Repr, DecidableEq

structure ValidationResult where
  isValid : Bool
  errors : List ValidationError
  warnings : List ValidationWarning
  suggestions : List String
deriving Repr

/-- Line 62 of vault-validator.ts:
`errors.filter(e => e.severity === 'error').length === 0`. -/
def computeIsValid (errors : List ValidationError) : Bool :=
  (errors.filter (fun e => decide (e.severity = Severity.error))).length == 0

/-- Decimal rendering with one fractional digit, standing in for the
JavaScript `toFixed(1)` on a byte count divided by 1024*1024. -/
def mbToFixed1 (bytes : Nat) : String :=
  let tenths := (bytes * 10 + 524288) / 1048576
  toString (tenths / 10) ++ "." ++ toString (tenths % 10)

/-- `VaultValidator.validateBasicStructure`: only `errors` are pushed here. -/
def validateBasicStructure (vaultPath : String) (root : Option FSEntry) :
    List ValidationError :=
  match root with
  | none =>
      [{ code := "VAULT_NOT_FOUND",
         message := "Vault directory not found: " ++ vaultPath,
         path := some vaultPath, severity := .error }]
  | some (.file _ _) =>
      [{ code := "VAULT_NOT_DIRECTORY",
         message := "Vault path is not a directory: " ++ vaultPath,
         path := some vaultPath, severity := .error }]
  | some (.dir es) =>
      match findEntry es ".obsidian" with
      | none =>
          [{ code := "OBSIDIAN_CONFIG_MISSING",
             message := "Missing .obsidian configuration directory. This does not appear to be a valid Obsidian vault.",
             path := some (joinPath vaultPath ".obsidian"), severity := .error }]
      | some (.file _ _) =>
          [{ code := "OBSIDIAN_CONFIG_NOT_DIRECTORY",
             message := ".obsidian exists but is not a directory",
             path := some (joinPath vaultPath ".obsidian"), severity := .error }]
      | some (.dir _) => []

/-- `VaultValidator.validateJsonFile`: a well-formed JSON file yields
nothing; a file that fails to parse — or a directory, on which
`readFileSync` throws — yields an `INVALID_JSON` error.  The runtime
parser's message detail is omitted from the message text. -/
def validateJsonFileErrors (e : FSEntry) (fileName filePath : String) :
    List ValidationError :=
  match e with
  | .file _ true => []
  | _ =>
      [{ code := "INVALID_JSON",
         message := "Invalid JSON in " ++ fileName,
         path := some filePath, severity := .error }]

/-- `VaultValidator.validateObsidianConfig`: checks inside `.obsidian`
(returns early when it does not exist). -/
def validateObsidianConfig (vaultPath : String) (root : Option FSEntry) :
    List ValidationError × List ValidationWarning :=
  match childOf root ".obsidian" with
  | none => ([], [])
  | some obsEntry =>
      let obsidianPath := joinPath vaultPath ".obsidian"
      let (appErrors, appWarnings) : List ValidationError × List ValidationWarning :=
        match entryChild obsEntry "app.json" with
        | none =>
            ([], [{ code := "APP_JSON_MISSING",
                    message := "app.json not found. Obsidian may not have been properly initialized.",
                    path := some (joinPath obsidianPath "app.json"),
                    suggestion := some "Open the vault in Obsidian to generate the configuration file." }])
        | some f => (validateJsonFileErrors f "app.json" (joinPath obsidianPath "app.json"), [])
      let (wsErrors, wsWarnings) : List ValidationError × List ValidationWarning :=
        match entryChild obsEntry "workspace.json" with
        | none =>
            ([], [{ code := "WORKSPACE_JSON_MISSING",
                    message := "workspace.json not found. This may indicate the vault has never been opened.",
                    path := some (joinPath obsidianPath "workspace.json"),
                    suggestion := some "Open the vault in Obsidian to generate workspace configuration." }])
        | some f => (validateJsonFileErrors f "workspace.json" (joinPath obsidianPath "workspace.json"), [])
      let (cpErrors, cpWarnings) : List ValidationError × List ValidationWarning :=
        match entryChild obsEntry "community-plugins.json" with
        | none => ([], [])
        | some f =>
            (validateJsonFileErrors f "community-plugins.json"
               (joinPath obsidianPath "community-plugins.json"),
             if (entryChild obsEntry "plugins").isNone then
               [{ code := "PLUGINS_DIRECTORY_MISSING",
                  message := "Community plugins are configured but plugins directory is missing.",
                  path := some (joinPath obsidianPath "plugins"),
                  suggestion := some "Install community plugins or disable them in Obsidian settings." }]
             else [])
      let coreErrors :=
        match entryChild obsEntry "core-plugins.json" with
        | none => []
        | some f =>
            validateJsonFileErrors f "core-plugins.json"
              (joinPath obsidianPath "core-plugins.json")
      (appErrors ++ wsErrors ++ cpErrors ++ coreErrors,
       appWarnings ++ wsWarnings ++ cpWarnings)

/-- `VaultValidator.validatePluginConfig`: checks inside `.obsidian/plugins`
(returns early when it does not exist). -/
def validatePluginConfig (vaultPath : String) (root : Option FSEntry) :
    List ValidationError × List ValidationWarning :=
  match childOf (childOf root ".obsidian") "plugins" with
  | none => ([], [])
  | some pluginsEntry =>
      let pluginsDir := joinPath (joinPath vaultPath ".obsidian") "plugins"
      let dataErrors :=
        match entryChild pluginsEntry "webpage-html-export" with
        | none => []
        | some htmlExportEntry =>
            match entryChild htmlExportEntry "data.json" with
            | none => []
            | some f =>
                validateJsonFileErrors f "HTML Export plugin data.json"
                  (joinPath (joinPath pluginsDir "webpage-html-export") "data.json")
      let problematicWarnings :=
        (["obsidian-git", "obsidian-sync"].filter
            (fun pluginId => (entryChild pluginsEntry pluginId).isSome)).map
          (fun pluginId =>
            { code := "POTENTIALLY_PROBLEMATIC_PLUGIN",
              message := "Plugin \x22" ++ pluginId ++ "\x22 detected. This plugin may interfere with Docker exports.",
              path := some (joinPath pluginsDir pluginId),
              suggestion := some "Consider disabling this plugin for Docker exports or ensure it does not conflict with the export process." })
      (dataErrors, problematicWarnings)

/-- `VaultValidator.validateContent`: markdown presence, attachment
directory sizes and large-file scan; only warnings and suggestions. -/
def validateContent (root : Option FSEntry) :
    List ValidationWarning × List String :=
  let mdWarnings :=
    if countFilesWithExtensionRoot ".md" root = 0 then
      [{ code := "NO_MARKDOWN_FILES",
         message := "No markdown files found in the vault.",
         path := none,
         suggestion := some "Ensure the vault contains .md files to export." : ValidationWarning }]
    else []
  let assetWarnings :=
    match childOf root "assets" with
    | none => []
    | some assetsEntry =>
        let assetCount := countFilesInDirectory (some assetsEntry)
        if assetCount > 1000 then
          [{ code := "LARGE_ASSETS_DIRECTORY",
             message := "Large number of assets detected (" ++ toString assetCount ++ " files). This may slow down exports.",
             path := some "assets",
             suggestion := some "Consider optimizing or organizing assets to improve export performance." : ValidationWarning }]
        else []
  let attachmentWarnings :=
    (["attachments", "files", "images", "media"].map
        (fun dirName =>
          match childOf root dirName with
          | none => ([] : List ValidationWarning)
          | some dirEntry =>
              let fileCount := countFilesInDirectory (some dirEntry)
              if fileCount > 500 then
                [{ code := "LARGE_ATTACHMENT_DIRECTORY",
                   message := "Large attachment directory detected: " ++ dirName ++ " (" ++ toString fileCount ++ " files)",
                   path := some dirName,
                   suggestion := some "Consider organizing attachments or using exclude patterns for unused files." }]
              else [])).flatten
  let largeFiles := findLargeFilesRoot (50 * 1024 * 1024) root
  let largeWarnings :=
    if largeFiles.length > 0 then
      [{ code := "LARGE_FILES_DETECTED",
         message := "Large files detected (" ++ toString largeFiles.length ++ " files > 50MB)",
         path := none,
         suggestion := some "Consider excluding large files from export or optimizing them for web delivery." : ValidationWarning }]
    else []
  let largeSuggestions :=
    largeFiles.map (fun f => "Large file: " ++ f.1 ++ " (" ++ mbToFixed1 f.2 ++ " MB)")
  (mdWarnings ++ assetWarnings ++ attachmentWarnings ++ largeWarnings,
   largeSuggestions)

/-- `VaultValidator.validatePerformance`: vault-scale warnings only. -/
def validatePerformance (root : Option FSEntry) : List ValidationWarning :=
  let markdownCount := countFilesWithExtensionRoot ".md" root
  let sizeWarnings :=
    if markdownCount > 5000 then
      [{ code := "LARGE_VAULT_SIZE",
         message := "Large vault detected (" ++ toString markdownCount ++ " markdown files). Export may take significant time.",
         path := none,
         suggestion := some "Consider using exclude patterns to limit the scope of the export or enable incremental exports." : ValidationWarning }]
    else []
  let diskBytes := getDirectorySizeRoot root
  let diskWarnings :=
    if diskBytes > 1000 * 1024 * 1024 then
      [{ code := "LARGE_VAULT_DISK_SIZE",
         message := "Large vault size detected (" ++ mbToFixed1 diskBytes ++ " MB).",
         path := none,
         suggestion := some "Consider excluding large files or directories that are not needed for the web export." : ValidationWarning }]
    else []
  let maxDepth := getMaxDirectoryDepthRoot root
  let depthWarnings :=
    if maxDepth > 10 then
      [{ code := "DEEP_DIRECTORY_STRUCTURE",
         message := "Deep directory structure detected (" ++ toString maxDepth ++ " levels deep).",
         path := none,
         suggestion := some "Consider flattening the directory structure for better web navigation." : ValidationWarning }]
    else []
  sizeWarnings ++ diskWarnings ++ depthWarnings

/-- `VaultValidator.validateVault`: runs the five check groups in order,
then computes overall validity once, at the end, from the error list. -/
def validateVault (vaultPath : String) (root : Option FSEntry) : ValidationResult :=
  let basicErrors := validateBasicStructure vaultPath root
  let (obsErrors, obsWarnings) := validateObsidianConfig vaultPath root
  let (pluginErrors, pluginWarnings) := validatePluginConfig vaultPath root
  let (contentWarnings, contentSuggestions) := validateContent root
  let perfWarnings := validatePerformance root
  let errors := basicErrors ++ obsErrors ++ pluginErrors
  let warnings := obsWarnings ++ pluginWarnings ++ contentWarnings ++ perfWarnings
  { isValid := computeIsValid errors,
    errors := errors,
    warnings := warnings,
    suggestions := contentSuggestions }

/-! ## Claims C1 and C2 — VaultValidator invariants -/

/-- `computeIsValid` is `false` exactly when some error has severity
`error`. -/
theorem computeIsValid_eq_false_iff (errors : List ValidationError) :
    computeIsValid errors = false ↔ ∃ e ∈ errors, e.severity = Severity.error := by
  simp [computeIsValid, List.length_eq_zero, List.filter_eq_nil_iff]

/-- Claim C1: for every `ValidationResult` returned by
`VaultValidator.validateVault`, `isValid` is `false` iff the `errors` list
contains an entry of severity `error`; `isValid` equals `computeIsValid`
of the error list (so it is computed once, at the end, from the errors
alone), and two validations that produce the same error list always agree
on `isValid` — the warnings never affect it. -/
theorem claim_C1_isValid_from_errors_only (vaultPath : String) (root : Option FSEntry) :
    ((validateVault vaultPath root).isValid = false ↔
      ∃ e ∈ (validateVault vaultPath root).errors, e.severity = Severity.error)
    ∧ (validateVault vaultPath root).isValid
        = computeIsValid (validateVault vaultPath root).errors
    ∧ (∀ (vaultPath2 : String) (root2 : Option FSEntry),
        (validateVault vaultPath root).errors = (validateVault vaultPath2 root2).errors →
        (validateVault vaultPath root).isValid = (validateVault vaultPath2 root2).isValid) := by
  refine ⟨computeIsValid_eq_false_iff _, rfl, ?_⟩
  intro vaultPath2 root2 h
  have h1 : (validateVault vaultPath root).isValid
      = computeIsValid (validateVault vaultPath root).errors := rfl
  have h2 : (validateVault vaultPath2 root2).isValid
      = computeIsValid (validateVault vaultPath2 root2).errors := rfl
  rw [h1, h2, h]

/-- Concrete instance of claim C1's hypotheses: two vaults whose warnings
differ (one has a markdown file, the other has none at all) but whose error
lists agree, and the validator returns the same validity for both. -/
theorem claim_C1_witness :
    (validateVault "/vault"
        (some (FSEntry.dir (FSEntries.cons ".obsidian" (FSEntry.dir FSEntries.nil)
          (FSEntries.cons "x.md" (FSEntry.file 10 true) FSEntries.nil))))).errors
      = (validateVault "/vault"
          (some (FSEntry.dir (FSEntries.cons ".obsidian" (FSEntry.dir FSEntries.nil)
            FSEntries.nil)))).errors
    ∧ (validateVault "/vault"
        (some (FSEntry.dir (FSEntries.cons ".obsidian" (FSEntry.dir FSEntries.nil)
          (FSEntries.cons "x.md" (FSEntry.file 10 true) FSEntries.nil))))).isValid
      = (validateVault "/vault"
          (some (FSEntry.dir (FSEntries.cons ".obsidian" (FSEntry.dir FSEntries.nil)
            FSEntries.nil)))).isValid := by
  constructor
  · decide
  · exact (claim_C1_isValid_from_errors_only "/vault" _).2.2 "/vault" _ (by decide)

/-- Claim C2: for every existing directory with no `.obsidian` entry,
`validateVault` reports invalid with exactly one error, whose code is
`OBSIDIAN_CONFIG_MISSING`, whatever else the directory contains (other
contents add only warnings in this case). -/
theorem claim_C2_missing_obsidian_single_error (vaultPath : String) (es : FSEntries)
    (h : findEntry es ".obsidian" = none) :
    (validateVault vaultPath (some (FSEntry.dir es))).isValid = false
    ∧ (validateVault vaultPath (some (FSEntry.dir es))).errors.map (fun e => e.code)
        = ["OBSIDIAN_CONFIG_MISSING"] := by
  have herr : (validateVault vaultPath (some (FSEntry.dir es))).errors
      = [{ code := "OBSIDIAN_CONFIG_MISSING",
           message := "Missing .obsidian configuration directory. This does not appear to be a valid Obsidian vault.",
           path := some (joinPath vaultPath ".obsidian"), severity := .error }] := by
    show (validateBasicStructure vaultPath (some (FSEntry.dir es))
        ++ (validateObsidianConfig vaultPath (some (FSEntry.dir es))).1
        ++ (validatePluginConfig vaultPath (some (FSEntry.dir es))).1) = _
    simp [validateBasicStructure, validateObsidianConfig, validatePluginConfig, childOf, h]
  have hvalid : (validateVault vaultPath (some (FSEntry.dir es))).isValid
      = computeIsValid (validateVault vaultPath (some (FSEntry.dir es))).errors := rfl
  refine ⟨?_, by rw [herr]; rfl⟩
  rw [hvalid, herr]
  rfl

/-- Concrete instance of claim C2: a directory holding a markdown note and
an attachments directory but no `.obsidian` entry. -/
theorem claim_C2_witness :
    findEntry (FSEntries.cons "note.md" (FSEntry.file 100 true)
        (FSEntries.cons "attachments" (FSEntry.dir FSEntries.nil) FSEntries.nil))
        ".obsidian" = none
    ∧ ((validateVault "/vault"
          (some (FSEntry.dir (FSEntries.cons "note.md" (FSEntry.file 100 true)
            (FSEntries.cons "attachments" (FSEntry.dir FSEntries.nil) FSEntries.nil))))).isValid
          = false
        ∧ (validateVault "/vault"
            (some (FSEntry.dir (FSEntries.cons "note.md" (FSEntry.file 100 true)
              (FSEntries.cons "attachments" (FSEntry.dir FSEntries.nil) FSEntries.nil))))).errors.map
              (fun e => e.code)
          = ["OBSIDIAN_CONFIG_MISSING"]) :=
  ⟨rfl, claim_C2_missing_obsidian_single_error "/vault" _ rfl⟩

/-! ## Web configuration model (web-config.ts, docker-config-loader.ts)

String helpers model the JavaScript string methods used by the source
(`toLowerCase`, `toUpperCase`, `trim`, truthiness) over ASCII data. -/

/-- `String.prototype.toLowerCase` (ASCII range). -/
def jsToLower (s : String) : String := String.mk (s.toList.map Char.toLower)

/-- `String.prototype.toUpperCase` (ASCII range). -/
def jsToUpper (s : String) : String := String.mk (s.toList.map Char.toUpper)

/-- `String.prototype.trim` (ASCII whitespace). -/
def jsTrim (s : String) : String :=
  String.mk (((s.toList.dropWhile Char.isWhitespace).reverse.dropWhile
    Char.isWhitespace).reverse)

/-- JavaScript truthiness of an optional string: `undefined` and the empty
string are falsy.  `if (process.env.X) ...` keeps the value only in the
truthy case. -/
def jsTruthy (v : Option String) : Option String :=
  match v with
  | some s => if s = "" then none else some s
  | none => none

/-- A `MetaTag` (web-config.ts lines 48-52). -/
structure MetaTag where
  name : String
  content : String
  property : Option String
deriving Repr, DecidableEq

/-- `WebConfig.site` (web-config.ts lines 10-15). -/
structure SiteConfig where
  name : String
  description : String
  url : String
  favicon : Option String
deriving Repr, DecidableEq

/-- `WebConfig.features` (web-config.ts lines 18-27). -/
structure FeaturesConfig where
  search : Bool
  graphView : Bool
  navigation : Bool
  themeToggle : Bool
  backlinks : Bool
  tags : Bool
  outline : Bool
  sidebar : Bool
deriving Repr, DecidableEq

/-- `WebConfig.seo` (web-config.ts lines 30-35). -/
structure SeoConfig where
  googleAnalyticsId : Option String
  customMetaTags : Option (List MetaTag)
  generateSitemap : Bool
  generateRobotsTxt : Bool
deriving Repr, DecidableEq

/-- `WebConfig.advanced` (web-config.ts lines 38-45). -/
structure AdvancedConfig where
  customCSS : Option String
  excludePatterns : List String
  imageOptimization : Bool
  generateResponsiveImages : Bool
  slugifyPaths : Bool
  offlineResources : Bool
deriving Repr, DecidableEq

/-- `WebConfig` (web-config.ts lines 6-46). -/
structure WebConfig where
  version : String
  site : SiteConfig
  features : FeaturesConfig
  seo : SeoConfig
  advanced : AdvancedConfig
deriving Repr, DecidableEq

/-- `DEFAULT_WEB_CONFIG` (web-config.ts lines 57-93). -/
def DEFAULT_WEB_CONFIG : WebConfig :=
  { version := "1.0.0",
    site :=
      { name := "My Digital Garden",
        description := "A collection of interconnected notes and ideas",
        url := "https://example.com",
        favicon := none },
    features :=
      { search := true, graphView := true, navigation := true,
        themeToggle := true, backlinks := true, tags := true,
        outline := true, sidebar := true },
    seo :=
      { googleAnalyticsId := none,
        customMetaTags := some [],
        generateSitemap := true,
        generateRobotsTxt := true },
    advanced :=
      { customCSS := none,
        excludePatterns := ["Private/**", "Drafts/**", ".obsidian/**"],
        imageOptimization := true,
        generateResponsiveImages := true,
        slugifyPaths := true,
        offlineResources := false } }

/-- Model of the WHATWG `URL` constructor used by `validateWebConfig`: the
input (after stripping surrounding whitespace) must begin with an
`alpha (alphanum | + | - | .)*` scheme followed by a colon, the shape every
absolute URL requires to parse. -/
def urlCanParse (s : String) : Bool :=
  let cs := (jsTrim s).toList
  let schemeChars := cs.takeWhile (fun c => c ≠ ':')
  decide (schemeChars.length < cs.length)
  && !schemeChars.isEmpty
  && (match schemeChars with
      | c :: restChars =>
          c.isAlpha
          && restChars.all (fun ch =>
              ch.isAlphanum || ch = '+' || ch = '-' || ch = '.')
      | [] => false)

/-- The analytics-id pattern of web-config.ts line 123:
`/^(G-[A-Z0-9]+|UA-\d+-\d+|GT-[A-Z0-9]+)$/`. -/
def gaIdMatches (s : String) : Bool :=
  match s.toList with
  | 'G' :: '-' :: rest => !rest.isEmpty && rest.all (fun c => c.isUpper || c.isDigit)
  | 'G' :: 'T' :: '-' :: rest => !rest.isEmpty && rest.all (fun c => c.isUpper || c.isDigit)
  | 'U' :: 'A' :: '-' :: rest =>
      let digits1 := rest.takeWhile Char.isDigit
      (match rest.drop digits1.length with
       | '-' :: digits2 =>
           !digits1.isEmpty && !digits2.isEmpty && digits2.all Char.isDigit
       | _ => false)
  | _ => false

/-- `validateWebConfig` (web-config.ts lines 98-128): collects human-readable
violations; each `if` mirrors one `errors.push` site.  A total function —
the only potentially-throwing call in the source, `new URL`, sits inside a
`try`/`catch`. -/
def validateWebConfig (config : WebConfig) : List String :=
  (if config.site.name = "" ∨ jsTrim config.site.name = "" then
     ["Site name is required"]
   else [])
  ++ (if config.site.description = "" ∨ jsTrim config.site.description = "" then
        ["Site description is required"]
      else [])
  ++ (if config.site.url = "" ∨ jsTrim config.site.url = "" then
        ["Site URL is required"]
      else if ¬ urlCanParse config.site.url then
        ["Site URL must be a valid URL (e.g., https://example.com)"]
      else [])
  ++ (match config.seo.googleAnalyticsId with
      | some gid =>
          if gid ≠ "" ∧ ¬ gaIdMatches gid then
            ["Google Analytics ID must be in format G-XXXXXXXXXX, UA-XXXXXXXX-X, or GT-XXXXXXXXXX"]
          else []
      | none => [])

/-! ## Claim C3 — validateWebConfig -/

/-- Trimming the empty string gives the empty string. -/
theorem jsTrim_empty : jsTrim "" = "" := rfl

/-- A required-field check contributes no error exactly when the field is
non-empty after trimming (`s = ""` implies `jsTrim s = ""`). -/
theorem requiredField_nil_iff (s msg : String) :
    (if s = "" ∨ jsTrim s = "" then [msg] else []) = [] ↔ jsTrim s ≠ "" := by
  by_cases h : s = "" ∨ jsTrim s = ""
  · rw [if_pos h]
    have ht : jsTrim s = "" := by
      rcases h with h | h
      · subst h; rfl
      · exact h
    simp [ht]
  · rw [if_neg h]
    simp only [not_or] at h
    simp [h.2]

/-- The URL check contributes no error exactly when the URL is non-empty
after trimming and parses. -/
theorem urlField_nil_iff (s m1 m2 : String) :
    (if s = "" ∨ jsTrim s = "" then [m1]
     else if ¬ urlCanParse s then [m2] else []) = []
      ↔ (jsTrim s ≠ "" ∧ urlCanParse s = true) := by
  by_cases h : s = "" ∨ jsTrim s = ""
  · rw [if_pos h]
    have ht : jsTrim s = "" := by
      rcases h with h | h
      · subst h; rfl
      · exact h
    simp [ht]
  · rw [if_neg h]
    simp only [not_or] at h
    by_cases hu : urlCanParse s = true
    · simp [hu, h.2]
    · simp [hu, h.2]

/-- The validity condition exactly as claim C3 states it: the three site
fields non-empty (as strings), the URL parses as an absolute URL, and the
analytics id absent or matching one of the three vendor formats. -/
def claimC3Condition (config : WebConfig) : Bool :=
  (config.site.name != "") && (config.site.description != "")
  && (config.site.url != "") && urlCanParse config.site.url
  && (match config.seo.googleAnalyticsId with
      | none => true
      | some gid => gaIdMatches gid)

/-- The default configuration with the analytics id set to the empty
string: present, and matching none of the vendor formats. -/
def configEmptyGA : WebConfig :=
  { DEFAULT_WEB_CONFIG with
    seo := { DEFAULT_WEB_CONFIG.seo with googleAnalyticsId := some "" } }

/-- Counterexample to claim C3 as stated: with the analytics id present but
equal to `""`, the source's truthiness guard skips the format check, so
`validateWebConfig` returns no errors even though the id is present and
matches no vendor format. -/
theorem claim_C3_counterexample :
    validateWebConfig configEmptyGA = []
    ∧ ¬ ((validateWebConfig configEmptyGA = []) ↔ claimC3Condition configEmptyGA = true) := by
  constructor
  · decide
  · decide

/-- The corrected validity condition: emptiness of the required fields is
judged after trimming whitespace, and an analytics id that is the empty
string is treated like an absent one (it is falsy in the source's
`config.seo.googleAnalyticsId && ...` guard). -/
def amendedC3Condition (config : WebConfig) : Bool :=
  (jsTrim config.site.name != "") && (jsTrim config.site.description != "")
  && (jsTrim config.site.url != "") && urlCanParse config.site.url
  && (match config.seo.googleAnalyticsId with
      | none => true
      | some gid => (gid == "") || gaIdMatches gid)

/-- Claim C3 (amended): `validateWebConfig` returns an empty error list iff
site name, description and URL are non-empty after trimming, the URL parses
as an absolute URL, and the analytics id is absent, empty, or matches one
of the three vendor formats.  The function is total, hence never throws. -/
theorem claim_C3_amended (config : WebConfig) :
    validateWebConfig config = [] ↔ amendedC3Condition config = true := by
  unfold validateWebConfig amendedC3Condition
  rcases hga : config.seo.googleAnalyticsId with _ | gid <;>
    simp only [hga] <;>
    rw [List.append_eq_nil, List.append_eq_nil, List.append_eq_nil,
        requiredField_nil_iff, requiredField_nil_iff, urlField_nil_iff]
  · simp only [Bool.and_eq_true, bne_iff_ne, List.nil_eq, and_true]
    try tauto
  · by_cases h1 : gid = ""
    · simp [h1, Bool.and_eq_true, bne_iff_ne]
      try tauto
    · by_cases h2 : gaIdMatches gid = true
      · simp [h1, h2, Bool.and_eq_true, bne_iff_ne]
        try tauto
      · simp [h1, h2, Bool.and_eq_true, bne_iff_ne]
        try tauto

/-! ## Claims C4 and C7 — DockerConfigLoader

The environment is a record of the variables `loadFromEnvironment` reads.
`customMetaTags` is modelled together with the outcome of `JSON.parse` on
its string value: `none` = variable unset; `some none` = set but failing to
parse or not an array (defaults kept); `some (some tags)` = parsed array. -/

structure DockerEnv where
  siteName : Option String
  siteDescription : Option String
  siteUrl : Option String
  siteFavicon : Option String
  featureSearch : Option String
  featureGraphView : Option String
  featureNavigation : Option String
  featureThemeToggle : Option String
  featureBacklinks : Option String
  featureTags : Option String
  featureOutline : Option String
  featureSidebar : Option String
  googleAnalyticsId : Option String
  generateSitemap : Option String
  generateRobotsTxt : Option String
  customMetaTags : Option (Option (List MetaTag))
  customCSS : Option String
  excludePatterns : Option String
  imageOptimization : Option String
  responsiveImages : Option String
  slugifyPaths : Option String
  offlineResources : Option String
deriving Repr

/-- The environment with every variable unset. -/
def emptyDockerEnv : DockerEnv :=
  { siteName := none, siteDescription := none, siteUrl := none,
    siteFavicon := none, featureSearch := none, featureGraphView := none,
    featureNavigation := none, featureThemeToggle := none,
    featureBacklinks := none, featureTags := none, featureOutline := none,
    featureSidebar := none, googleAnalyticsId := none,
    generateSitemap := none, generateRobotsTxt := none,
    customMetaTags := none, customCSS := none, excludePatterns := none,
    imageOptimization := none, responsiveImages := none,
    slugifyPaths := none, offlineResources := none }

/-- Result of `DockerConfigLoader.parseBooleanEnv` together with whether the
`console.warn` branch fired. -/
structure ParsedBool where
  value : Bool
  warned : Bool
deriving Repr, DecidableEq

/-- `DockerConfigLoader.parseBooleanEnv` (main.ts lines 427-443): an unset
variable keeps the default; otherwise the value is lowercased and trimmed
and compared against the accepted spellings; anything else warns and keeps
the default.  Total, so a malformed value never aborts startup. -/
def parseBooleanEnv (value : Option String) (defaultValue : Bool) : ParsedBool :=
  match value with
  | none => { value := defaultValue, warned := false }
  | some v =>
      let lowerValue := jsTrim (jsToLower v)
      if lowerValue = "true" ∨ lowerValue = "1" ∨ lowerValue = "yes" then
        { value := true, warned := false }
      else if lowerValue = "false" ∨ lowerValue = "0" ∨ lowerValue = "no" then
        { value := false, warned := false }
      else
        { value := defaultValue, warned := true }

/-- `DockerConfigLoader.loadFromEnvironment` (main.ts lines 262-331): a deep
copy of `DEFAULT_WEB_CONFIG` overlaid with the recognized environment
variables.  String variables apply only when truthy; boolean variables go
through `parseBooleanEnv` with the current field as default; the exclude
patterns are split on commas, trimmed and filtered. -/
def loadFromEnvironment (env : DockerEnv) : WebConfig :=
  let config := DEFAULT_WEB_CONFIG
  { version := config.version,
    site :=
      { name :=
          match jsTruthy env.siteName with
          | some v => v
          | none => config.site.name,
        description :=
          match jsTruthy env.siteDescription with
          | some v => v
          | none => config.site.description,
        url :=
          match jsTruthy env.siteUrl with
          | some v => v
          | none => config.site.url,
        favicon :=
          match jsTruthy env.siteFavicon with
          | some v => some v
          | none => config.site.favicon },
    features :=
      { search := (parseBooleanEnv env.featureSearch config.features.search).value,
        graphView := (parseBooleanEnv env.featureGraphView config.features.graphView).value,
        navigation := (parseBooleanEnv env.featureNavigation config.features.navigation).value,
        themeToggle := (parseBooleanEnv env.featureThemeToggle config.features.themeToggle).value,
        backlinks := (parseBooleanEnv env.featureBacklinks config.features.backlinks).value,
        tags := (parseBooleanEnv env.featureTags config.features.tags).value,
        outline := (parseBooleanEnv env.featureOutline config.features.outline).value,
        sidebar := (parseBooleanEnv env.featureSidebar config.features.sidebar).value },
    seo :=
      { googleAnalyticsId :=
          match jsTruthy env.googleAnalyticsId with
          | some v => some v
          | none => config.seo.googleAnalyticsId,
        customMetaTags :=
          match env.customMetaTags with
          | some (some metaTags) => some metaTags
          | some none => config.seo.customMetaTags
          | none => config.seo.customMetaTags,
        generateSitemap := (parseBooleanEnv env.generateSitemap config.seo.generateSitemap).value,
        generateRobotsTxt := (parseBooleanEnv env.generateRobotsTxt config.seo.generateRobotsTxt).value },
    advanced :=
      { customCSS :=
          match jsTruthy env.customCSS with
          | some v => some v
          | none => config.advanced.customCSS,
        excludePatterns :=
          match jsTruthy env.excludePatterns with
          | some v => ((v.splitOn ",").map jsTrim).filter (fun p => p.length > 0)
          | none => config.advanced.excludePatterns,
        imageOptimization := (parseBooleanEnv env.imageOptimization config.advanced.imageOptimization).value,
        generateResponsiveImages := (parseBooleanEnv env.responsiveImages config.advanced.generateResponsiveImages).value,
        slugifyPaths := (parseBooleanEnv env.slugifyPaths config.advanced.slugifyPaths).value,
        offlineResources := (parseBooleanEnv env.offlineResources config.advanced.offlineResources).value } }

/-! At runtime (`EnhancedDockerIntegration.loadConfiguration`), the caller's
`configOverrides` is a plain JavaScript object whose sections may carry any
subset of keys; `Object.assign(config, overrides)` copies its top-level
properties wholesale.  The `JS...` structures model such section objects
(a missing key is `none`), and `LoadedWebConfig` models the configuration
object after the assign, whose sections may therefore be partial. -/

structure JSSiteConfig where
  name : Option String
  description : Option String
  url : Option String
  favicon : Option String
deriving Repr, DecidableEq

structure JSFeaturesConfig where
  search : Option Bool
  graphView : Option Bool
  navigation : Option Bool
  themeToggle : Option Bool
  backlinks : Option Bool
  tags : Option Bool
  outline : Option Bool
  sidebar : Option Bool
deriving Repr, DecidableEq

structure JSSeoConfig where
  googleAnalyticsId : Option String
  customMetaTags : Option (List MetaTag)
  generateSitemap : Option Bool
  generateRobotsTxt : Option Bool
deriving Repr, DecidableEq

structure JSAdvancedConfig where
  customCSS : Option String
  excludePatterns : Option (List String)
  imageOptimization : Option Bool
  generateResponsiveImages : Option Bool
  slugifyPaths : Option Bool
  offlineResources : Option Bool
deriving Repr, DecidableEq

/-- A caller-supplied `configOverrides` object: any subset of top-level
sections, each section any subset of keys. -/
structure WebConfigOverrides where
  version : Option String
  site : Option JSSiteConfig
  features : Option JSFeaturesConfig
  seo : Option JSSeoConfig
  advanced : Option JSAdvancedConfig
deriving Repr, DecidableEq

/-- The empty overrides object (also the behaviour when the parameter is
omitted). -/
def emptyOverrides : WebConfigOverrides :=
  { version := none, site := none, features := none, seo := none,
    advanced := none }

/-- The runtime configuration object after `Object.assign`: each section
may be a partial JavaScript object. -/
structure LoadedWebConfig where
  version : Option String
  site : JSSiteConfig
  features : JSFeaturesConfig
  seo : JSSeoConfig
  advanced : JSAdvancedConfig
deriving Repr, DecidableEq

/-- View of a fully-populated section as a JavaScript object. -/
def SiteConfig.toJS (s : SiteConfig) : JSSiteConfig :=
  { name := some s.name, description := some s.description,
    url := some s.url, favicon := s.favicon }

def FeaturesConfig.toJS (f : FeaturesConfig) : JSFeaturesConfig :=
  { search := some f.search, graphView := some f.graphView,
    navigation := some f.navigation, themeToggle := some f.themeToggle,
    backlinks := some f.backlinks, tags := some f.tags,
    outline := some f.outline, sidebar := some f.sidebar }

def SeoConfig.toJS (s : SeoConfig) : JSSeoConfig :=
  { googleAnalyticsId := s.googleAnalyticsId,
    customMetaTags := s.customMetaTags,
    generateSitemap := some s.generateSitemap,
    generateRobotsTxt := some s.generateRobotsTxt }

def AdvancedConfig.toJS (a : AdvancedConfig) : JSAdvancedConfig :=
  { customCSS := a.customCSS,
    excludePatterns := some a.excludePatterns,
    imageOptimization := some a.imageOptimization,
    generateResponsiveImages := some a.generateResponsiveImages,
    slugifyPaths := some a.slugifyPaths,
    offlineResources := some a.offlineResources }

def WebConfig.toJS (c : WebConfig) : LoadedWebConfig :=
  { version := some c.version, site := c.site.toJS,
    features := c.features.toJS, seo := c.seo.toJS,
    advanced := c.advanced.toJS }

/-- `EnhancedDockerIntegration.loadConfiguration` (vault-validator.ts file,
lines 705-729): `loadFromEnvironment`, then `Object.assign(config,
overrides)` — a shallow copy of the override object's top-level
properties.  The subsequent `validateEnvironmentConfig` call only logs
warnings and does not change the returned configuration, so it is omitted
from the value model. -/
def loadConfiguration (env : DockerEnv) (overrides : WebConfigOverrides) :
    LoadedWebConfig :=
  let config := (loadFromEnvironment env).toJS
  { version :=
      match overrides.version with
      | some v => some v
      | none => config.version,
    site :=
      match overrides.site with
      | some s => s
      | none => config.site,
    features :=
      match overrides.features with
      | some f => f
      | none => config.features,
    seo :=
      match overrides.seo with
      | some s => s
      | none => config.seo,
    advanced :=
      match overrides.advanced with
      | some a => a
      | none => config.advanced }

/-- The merge that claim C4 asserts (spec wording, for comparison with the
source behaviour): a caller override is deep-merged over the earlier layers
field-by-field, so an override setting only some fields of a nested section
keeps the earlier-layer values of the others. -/
def claimedDeepMergedConfiguration (env : DockerEnv) (overrides : WebConfigOverrides) :
    WebConfig :=
  let base := loadFromEnvironment env
  { version :=
      match overrides.version with
      | some v => v
      | none => base.version,
    site :=
      match overrides.site with
      | some s =>
          { name := s.name.getD base.site.name,
            description := s.description.getD base.site.description,
            url := s.url.getD base.site.url,
            favicon := match s.favicon with | some f => some f | none => base.site.favicon }
      | none => base.site,
    features :=
      match overrides.features with
      | some f =>
          { search := f.search.getD base.features.search,
            graphView := f.graphView.getD base.features.graphView,
            navigation := f.navigation.getD base.features.navigation,
            themeToggle := f.themeToggle.getD base.features.themeToggle,
            backlinks := f.backlinks.getD base.features.backlinks,
            tags := f.tags.getD base.features.tags,
            outline := f.outline.getD base.features.outline,
            sidebar := f.sidebar.getD base.features.sidebar }
      | none => base.features,
    seo :=
      match overrides.seo with
      | some s =>
          { googleAnalyticsId :=
              match s.googleAnalyticsId with
              | some g => some g
              | none => base.seo.googleAnalyticsId,
            customMetaTags :=
              match s.customMetaTags with
              | some t => some t
              | none => base.seo.customMetaTags,
            generateSitemap := s.generateSitemap.getD base.seo.generateSitemap,
            generateRobotsTxt := s.generateRobotsTxt.getD base.seo.generateRobotsTxt }
      | none => base.seo,
    advanced :=
      match overrides.advanced with
      | some a =>
          { customCSS :=
              match a.customCSS with
              | some c => some c
              | none => base.advanced.customCSS,
            excludePatterns := a.excludePatterns.getD base.advanced.excludePatterns,
            imageOptimization := a.imageOptimization.getD base.advanced.imageOptimization,
            generateResponsiveImages :=
              a.generateResponsiveImages.getD base.advanced.generateResponsiveImages,
            slugifyPaths := a.slugifyPaths.getD base.advanced.slugifyPaths,
            offlineResources := a.offlineResources.getD base.advanced.offlineResources }
      | none => base.advanced }

/-- An override that sets only the site name. -/
def overridesSiteNameOnly : WebConfigOverrides :=
  { emptyOverrides with
    site := some { name := some "My Garden", description := none,
                   url := none, favicon := none } }

/-- Counterexample to claim C4 as stated: with an override carrying only
`site.name`, `Object.assign` replaces the whole `site` section, so the
resulting `site.description` is absent — not the earlier-layer default that
the claimed deep merge would keep. -/
theorem claim_C4_counterexample :
    (loadConfiguration emptyDockerEnv overridesSiteNameOnly).site.description = none
    ∧ (claimedDeepMergedConfiguration emptyDockerEnv overridesSiteNameOnly).site.description
        = "A collection of interconnected notes and ideas"
    ∧ ¬ ((loadConfiguration emptyDockerEnv overridesSiteNameOnly).site.description
          = some ((loadFromEnvironment emptyDockerEnv).site.description)) := by
  refine ⟨rfl, rfl, ?_⟩
  decide

/-- Claim C4 (amended): the configuration is built fresh from a deep copy of
the defaults (an empty environment reproduces `DEFAULT_WEB_CONFIG`
exactly), then overlaid with environment values, and the caller-supplied
overrides are applied last with a shallow top-level `Object.assign`: a
section present in the overrides replaces that entire section (fields the
caller omitted become absent), while absent sections keep the
default-plus-environment values. -/
theorem claim_C4_amended (env : DockerEnv) (overrides : WebConfigOverrides) :
    loadFromEnvironment emptyDockerEnv = DEFAULT_WEB_CONFIG
    ∧ loadConfiguration env emptyOverrides = (loadFromEnvironment env).toJS
    ∧ (loadConfiguration env overrides).version
        = (match overrides.version with
           | some v => some v
           | none => some (loadFromEnvironment env).version)
    ∧ (loadConfiguration env overrides).site
        = (match overrides.site with
           | some s => s
           | none => (loadFromEnvironment env).site.toJS)
    ∧ (loadConfiguration env overrides).features
        = (match overrides.features with
           | some f => f
           | none => (loadFromEnvironment env).features.toJS)
    ∧ (loadConfiguration env overrides).seo
        = (match overrides.seo with
           | some s => s
           | none => (loadFromEnvironment env).seo.toJS)
    ∧ (loadConfiguration env overrides).advanced
        = (match overrides.advanced with
           | some a => a
           | none => (loadFromEnvironment env).advanced.toJS) := by
  refine ⟨rfl, rfl, ?_, ?_, ?_, ?_, ?_⟩ <;>
    · unfold loadConfiguration
      rfl

/-! ## Claim C7 — parseBooleanEnv -/

/-- Claim C7: an unset boolean variable keeps the default; a value whose
lowercased, trimmed form is `true`/`1`/`yes` parses to `true` and
`false`/`0`/`no` to `false` (no warning); any other value warns and keeps
the prior value.  `parseBooleanEnv` is total, so parsing never aborts
startup. -/
theorem claim_C7_parse_boolean_env (d : Bool) (vt vf vx : String)
    (ht : jsTrim (jsToLower vt) = "true" ∨ jsTrim (jsToLower vt) = "1"
          ∨ jsTrim (jsToLower vt) = "yes")
    (hf : jsTrim (jsToLower vf) = "false" ∨ jsTrim (jsToLower vf) = "0"
          ∨ jsTrim (jsToLower vf) = "no")
    (hx1 : ¬ (jsTrim (jsToLower vx) = "true" ∨ jsTrim (jsToLower vx) = "1"
              ∨ jsTrim (jsToLower vx) = "yes"))
    (hx2 : ¬ (jsTrim (jsToLower vx) = "false" ∨ jsTrim (jsToLower vx) = "0"
              ∨ jsTrim (jsToLower vx) = "no")) :
    parseBooleanEnv none d = { value := d, warned := false }
    ∧ parseBooleanEnv (some vt) d = { value := true, warned := false }
    ∧ parseBooleanEnv (some vf) d = { value := false, warned := false }
    ∧ parseBooleanEnv (some vx) d = { value := d, warned := true } := by
  refine ⟨rfl, ?_, ?_, ?_⟩
  · rcases ht with h | h | h <;> simp [parseBooleanEnv, h]
  · rcases hf with h | h | h <;> simp [parseBooleanEnv, h]
  · simp [parseBooleanEnv, hx1, hx2]

/-- Concrete instance of claim C7's hypotheses: `"TRUE"`, `" No "` and
`"banana"` with prior value `false`. -/
theorem claim_C7_witness :
    (jsTrim (jsToLower "TRUE") = "true" ∨ jsTrim (jsToLower "TRUE") = "1"
      ∨ jsTrim (jsToLower "TRUE") = "yes")
    ∧ (jsTrim (jsToLower " No ") = "false" ∨ jsTrim (jsToLower " No ") = "0"
        ∨ jsTrim (jsToLower " No ") = "no")
    ∧ (parseBooleanEnv none false = { value := false, warned := false }
        ∧ parseBooleanEnv (some "TRUE") false = { value := true, warned := false }
        ∧ parseBooleanEnv (some " No ") false = { value := false, warned := false }
        ∧ parseBooleanEnv (some "banana") false = { value := false, warned := true }) :=
  ⟨by decide, by decide,
   claim_C7_parse_boolean_env false "TRUE" " No " "banana"
     (by decide) (by decide) (by decide) (by decide)⟩

/-! ## Claim C9 — DockerLogger

The logger is modelled as explicit state (minimum level plus the in-memory
entry list); console output is returned as a list of lines.  Timestamps,
context maps, progress bars and CI-mode annotations carried by the real
entries do not affect the claim and are omitted from the entry record. -/

/-- `LogLevel` (docker-logger section of main.ts, lines 479-484), with its
numeric values. -/
inductive LogLevel where
  | debug
  | info
  | warn
  | error
deriving Repr, DecidableEq

/-- The numeric value of each level (`DEBUG = 0 < INFO = 1 < WARN = 2 <
ERROR = 3`). -/
def LogLevel.toNat : LogLevel → Nat
  | .debug => 0
  | .info => 1
  | .warn => 2
  | .error => 3

/-- The level's name, as used in console output. -/
def LogLevel.name : LogLevel → String
  | .debug => "DEBUG"
  | .info => "INFO"
  | .warn => "WARN"
  | .error => "ERROR"

/-- One in-memory log entry (level and message; see section comment). -/
structure LogEntryM where
  level : LogLevel
  message : String
deriving Repr, DecidableEq

/-- Logger state: the minimum level fixed at construction and the
accumulated entries. -/
structure LoggerState where
  logLevel : LogLevel
  logEntries : List LogEntryM
deriving Repr, DecidableEq

/-- `DockerLogger.parseLogLevel` (main.ts lines 761-769): uppercase switch
with `INFO` as the default. -/
def parseLogLevel (level : String) : LogLevel :=
  if jsToUpper level = "DEBUG" then .debug
  else if jsToUpper level = "INFO" then .info
  else if jsToUpper level = "WARN" then .warn
  else if jsToUpper level = "ERROR" then .error
  else .info

/-- The logger constructor (main.ts lines 518-522):
`parseLogLevel(process.env.LOG_LEVEL || 'INFO')` — `||` falls back on the
empty string too.  The singleton `getInstance` builds this once, so the
minimum level is read once per process. -/
def mkDockerLogger (envLogLevel : Option String) : LoggerState :=
  let levelString :=
    match envLogLevel with
    | some s => if s = "" then "INFO" else s
    | none => "INFO"
  { logLevel := parseLogLevel levelString, logEntries := [] }

/-- `DockerLogger.log` (main.ts lines 685-709): a call strictly below the
minimum level returns immediately (no entry, no output); otherwise the
entry is appended and one formatted line is emitted (the real formatting
also carries a timestamp). -/
def DockerLogger.log (st : LoggerState) (level : LogLevel) (message : String) :
    LoggerState × List String :=
  if level.toNat < st.logLevel.toNat then
    (st, [])
  else
    let entry : LogEntryM := { level := level, message := message }
    ({ st with logEntries := st.logEntries ++ [entry] },
     [level.name ++ ": " ++ message])

/-- Error count of `generateSummaryReport`:
`logEntries.filter(e => e.level === LogLevel.ERROR).length`. -/
def summaryErrorCount (st : LoggerState) : Nat :=
  (st.logEntries.filter (fun e => decide (e.level = LogLevel.error))).length

/-- Warning count of `generateSummaryReport`. -/
def summaryWarningCount (st : LoggerState) : Nat :=
  (st.logEntries.filter (fun e => decide (e.level = LogLevel.warn))).length

/-- Claim C9: the minimum level comes from `LOG_LEVEL` at construction
(`INFO` when unset), the levels are ordered `DEBUG < INFO < WARN < ERROR`,
and a logging call strictly below the minimum is a no-op: the state is
unchanged, no console line is produced, and the summary report's error and
warning counts are untouched. -/
theorem claim_C9_log_level_threshold (s : String) (st : LoggerState)
    (level : LogLevel) (message : String)
    (hs : s ≠ "")
    (hbelow : level.toNat < st.logLevel.toNat) :
    (mkDockerLogger none).logLevel = LogLevel.info
    ∧ (mkDockerLogger (some s)).logLevel = parseLogLevel s
    ∧ LogLevel.debug.toNat < LogLevel.info.toNat
    ∧ LogLevel.info.toNat < LogLevel.warn.toNat
    ∧ LogLevel.warn.toNat < LogLevel.error.toNat
    ∧ DockerLogger.log st level message = (st, [])
    ∧ summaryErrorCount (DockerLogger.log st level message).1 = summaryErrorCount st
    ∧ summaryWarningCount (DockerLogger.log st level message).1 = summaryWarningCount st := by
  have hlog : DockerLogger.log st level message = (st, []) := by
    unfold DockerLogger.log
    rw [if_pos hbelow]
  refine ⟨rfl, ?_, by decide, by decide, by decide, hlog, by rw [hlog], by rw [hlog]⟩
  simp only [mkDockerLogger, if_neg hs]

/-- Concrete instance of claim C9's hypotheses: minimum level `WARN`
(read from `LOG_LEVEL=warn`), logging at `INFO`. -/
theorem claim_C9_witness :
    ("warn" : String) ≠ ""
    ∧ LogLevel.info.toNat < (mkDockerLogger (some "warn")).logLevel.toNat
    ∧ DockerLogger.log (mkDockerLogger (some "warn")) LogLevel.info "progress" 
        = (mkDockerLogger (some "warn"), []) :=
  ⟨by decide, by decide,
   (claim_C9_log_level_threshold "warn" (mkDockerLogger (some "warn"))
      LogLevel.info "progress" (by decide) (by decide)).2.2.2.2.2.1⟩

/-! ## Claims C5, C8, C10 — WebExportManager -/

/-- Modelled from the spec: the `extension` accessor of the plugin's `Path`
utility class (src/plugin/utils/path.ts, whose source is not included):
the text after the final dot of the path's final component, empty when
that component has no dot. -/
def pathExtension (p : String) : String :=
  let fileName := (p.toList.reverse.takeWhile (fun c => c ≠ '/')).reverse
  let extChars := (fileName.reverse.takeWhile (fun c => c ≠ '.')).reverse
  if extChars.length = fileName.length then "" else String.mk extChars

/-- Modelled from the spec: `new Path(deletedFile, destination.path)` —
a path interpreted relative to a working directory (Path class source not
included).  The extension comes from the relative part's final component. -/
structure MPath where
  workRoot : String
  rel : String
deriving Repr, DecidableEq

/-- The joined textual path. -/
def MPath.fullPath (p : MPath) : String := p.workRoot ++ "/" ++ p.rel

/-- The path's extension (final component of the relative part). -/
def MPath.extension (p : MPath) : String := pathExtension p.rel

/-- `WebExportManager.isFontFile` (web-export-manager.ts lines 203-206). -/
def isFontFile (filePath : MPath) : Bool :=
  let fontExtensions := ["woff", "woff2", "ttf", "otf"]
  fontExtensions.contains (jsToLower filePath.extension)

/-- Outcome of `cleanupOldFiles`: which `deletedFiles` entries had deletion
attempted, which were skipped as protected fonts, and the warnings logged
for failed deletions / the failed empty-directory sweep. -/
structure CleanupResult where
  attempted : List String
  skippedFonts : List String
  warnings : List String
deriving Repr, DecidableEq

/-- The `for (const deletedFile of website.index.deletedFiles)` loop of
`cleanupOldFiles` (web-export-manager.ts lines 173-188): font files are
skipped; for the rest `filePath.delete()` is attempted, and a failure is
logged as a warning without stopping the loop.  `deleteOk` is the oracle
for whether a given full path deletes without throwing. -/
def cleanupLoop (deleteOk : String → Bool) (destinationPath : String) :
    List String → CleanupResult
  | [] => { attempted := [], skippedFonts := [], warnings := [] }
  | deletedFile :: rest =>
      let filePath : MPath := { workRoot := destinationPath, rel := deletedFile }
      let r := cleanupLoop deleteOk destinationPath rest
      if isFontFile filePath then
        { r with skippedFonts := deletedFile :: r.skippedFonts }
      else if deleteOk filePath.fullPath then
        { r with attempted := deletedFile :: r.attempted }
      else
        { attempted := deletedFile :: r.attempted,
          skippedFonts := r.skippedFonts,
          warnings := ("Warning: Could not delete file " ++ filePath.fullPath)
            :: r.warnings }

/-- `WebExportManager.cleanupOldFiles` (web-export-manager.ts lines
166-196): early return on an empty `deletedFiles` list, the deletion loop,
then the empty-directory sweep whose failure (`sweepOk = false`) is logged
as a warning and nothing more. -/
def cleanupOldFiles (deleteOk : String → Bool) (sweepOk : Bool)
    (destinationPath : String) (deletedFiles : List String) : CleanupResult :=
  if deletedFiles.isEmpty then
    { attempted := [], skippedFonts := [], warnings := [] }
  else
    let r := cleanupLoop deleteOk destinationPath deletedFiles
    if sweepOk then r
    else { r with
           warnings := r.warnings ++ ["Warning: Could not remove empty directories"] }

/-- A `Website` as seen by the export manager: its index's list of files
deleted since the previous export. -/
structure WebsiteIndex where
  deletedFiles : List String
deriving Repr, DecidableEq

structure WebsiteModel where
  index : WebsiteIndex
deriving Repr, DecidableEq

/-- The two renderer batch calls bracketing an export
(`MarkdownRendererAPI.beginBatch` / `endBatch`). -/
inductive BatchEvent where
  | beginBatch
  | endBatch
deriving Repr, DecidableEq

/-- The environment of one `exportFiles` run: the observations
`validateExportInputs` makes, plus outcome oracles for the build
(`Website.load(...).build()` — an exception, a cancellation returning no
website, or a website), the per-file deletions, the empty-directory sweep,
and `saveWebsiteFiles`. -/
structure ExportEnv where
  filesCount : Nat
  destAbsolute : Bool
  destIsDirectory : Bool
  destExists : Bool
  createDirOk : Bool
  vaultHasObsidian : Bool
  buildOutcome : Except String (Option WebsiteModel)
  deleteOk : String → Bool
  sweepOk : Bool
  saveOutcome : Except String Unit

/-- `WebExportManager.validateExportInputs` (+ `validateVaultStructure`),
web-export-manager.ts lines 97-159: first failing check wins. -/
def validateExportInputs (env : ExportEnv) : Option String :=
  if env.filesCount = 0 then
    some "No files selected for export"
  else if !env.destAbsolute then
    some "Export path must be absolute"
  else if !env.destIsDirectory then
    some "Export path must be a directory"
  else if !env.destExists && !env.createDirOk then
    some "Cannot create export directory"
  else if !env.vaultHasObsidian then
    some "Invalid vault: .obsidian directory not found. Please ensure you're exporting from a valid Obsidian vault."
  else
    none

/-- Result of one `exportFiles` run: the returned website (if any), the
renderer batch calls in order, and the cleanup warnings. -/
structure ExportRun where
  result : Option WebsiteModel
  batchTrace : List BatchEvent
  cleanupWarnings : List String
deriving DecidableEq

/-- `WebExportManager.exportFiles` (web-export-manager.ts lines 22-73):
validation failure returns before `beginBatch`; otherwise `beginBatch`
runs, the `try` block builds the website (an exception is caught, a `null`
website reports cancellation, both returning `undefined`), cleans up old
files when requested, saves when requested (a thrown save error is caught,
returning `undefined`), and the `finally` clause always runs `endBatch`. -/
def exportFiles (env : ExportEnv) (destinationPath : String)
    (saveFiles deleteOld : Bool) : ExportRun :=
  match validateExportInputs env with
  | some _ => { result := none, batchTrace := [], cleanupWarnings := [] }
  | none =>
      match env.buildOutcome with
      | .error _ =>
          { result := none,
            batchTrace := [.beginBatch, .endBatch], cleanupWarnings := [] }
      | .ok none =>
          { result := none,
            batchTrace := [.beginBatch, .endBatch], cleanupWarnings := [] }
      | .ok (some website) =>
          let cleanup :=
            if deleteOld then
              cleanupOldFiles env.deleteOk env.sweepOk destinationPath
                website.index.deletedFiles
            else
              { attempted := [], skippedFonts := [], warnings := [] }
          if saveFiles then
            match env.saveOutcome with
            | .error _ =>
                { result := none,
                  batchTrace := [.beginBatch, .endBatch],
                  cleanupWarnings := cleanup.warnings }
            | .ok _ =>
                { result := some website,
                  batchTrace := [.beginBatch, .endBatch],
                  cleanupWarnings := cleanup.warnings }
          else
            { result := some website,
              batchTrace := [.beginBatch, .endBatch],
              cleanupWarnings := cleanup.warnings }

/-- The deletion loop attempts exactly the non-font entries, in order,
whatever the deletion outcomes are. -/
theorem cleanupLoop_attempted (deleteOk : String → Bool) (destinationPath : String)
    (fs : List String) :
    (cleanupLoop deleteOk destinationPath fs).attempted
      = fs.filter (fun f => !(isFontFile { workRoot := destinationPath, rel := f })) := by
  induction fs with
  | nil => rfl
  | cons f rest ih =>
      unfold cleanupLoop
      by_cases hf : isFontFile { workRoot := destinationPath, rel := f }
      · simp [hf, ih, List.filter_cons]
      · by_cases hd : deleteOk (MPath.fullPath { workRoot := destinationPath, rel := f }) <;>
          simp [hf, hd, ih, List.filter_cons]

/-- The deletion loop skips exactly the font entries, in order. -/
theorem cleanupLoop_skipped (deleteOk : String → Bool) (destinationPath : String)
    (fs : List String) :
    (cleanupLoop deleteOk destinationPath fs).skippedFonts
      = fs.filter (fun f => isFontFile { workRoot := destinationPath, rel := f }) := by
  induction fs with
  | nil => rfl
  | cons f rest ih =>
      unfold cleanupLoop
      by_cases hf : isFontFile { workRoot := destinationPath, rel := f }
      · simp [hf, ih, List.filter_cons]
      · by_cases hd : deleteOk (MPath.fullPath { workRoot := destinationPath, rel := f }) <;>
          simp [hf, hd, ih, List.filter_cons]

/-- A non-font entry whose deletion fails contributes its warning. -/
theorem cleanupLoop_warning_mem (deleteOk : String → Bool) (destinationPath : String)
    (fs : List String) (f : String) (hmem : f ∈ fs)
    (hfont : isFontFile { workRoot := destinationPath, rel := f } = false)
    (hdel : deleteOk (MPath.fullPath { workRoot := destinationPath, rel := f }) = false) :
    ("Warning: Could not delete file "
        ++ MPath.fullPath { workRoot := destinationPath, rel := f })
      ∈ (cleanupLoop deleteOk destinationPath fs).warnings := by
  induction fs with
  | nil => cases hmem
  | cons g rest ih =>
      rcases List.mem_cons.mp hmem with h | h
      · subst h
        unfold cleanupLoop
        simp [hfont, hdel]
      · unfold cleanupLoop
        by_cases hg : isFontFile { workRoot := destinationPath, rel := g }
        · simpa [hg] using ih h
        · by_cases hd : deleteOk (MPath.fullPath { workRoot := destinationPath, rel := g })
          · simpa [hg, hd] using ih h
          · simp [hg, hd]
            right
            exact ih h

/-- `cleanupOldFiles` attempts exactly the non-font entries. -/
theorem cleanupOldFiles_attempted (deleteOk : String → Bool) (sweepOk : Bool)
    (destinationPath : String) (fs : List String) :
    (cleanupOldFiles deleteOk sweepOk destinationPath fs).attempted
      = fs.filter (fun f => !(isFontFile { workRoot := destinationPath, rel := f })) := by
  unfold cleanupOldFiles
  by_cases he : fs.isEmpty
  · rw [if_pos he, List.isEmpty_iff.mp he]
    rfl
  · rw [if_neg he]
    by_cases hs : sweepOk <;> simp [hs, cleanupLoop_attempted]

/-- `cleanupOldFiles` skips exactly the font entries. -/
theorem cleanupOldFiles_skipped (deleteOk : String → Bool) (sweepOk : Bool)
    (destinationPath : String) (fs : List String) :
    (cleanupOldFiles deleteOk sweepOk destinationPath fs).skippedFonts
      = fs.filter (fun f => isFontFile { workRoot := destinationPath, rel := f }) := by
  unfold cleanupOldFiles
  by_cases he : fs.isEmpty
  · rw [if_pos he, List.isEmpty_iff.mp he]
    rfl
  · rw [if_neg he]
    by_cases hs : sweepOk <;> simp [hs, cleanupLoop_skipped]

/-- Claim C5: during cleanup, every `deletedFiles` entry whose extension is
a protected font format is skipped (reported on the skip side-channel) and
never has deletion attempted, while deletion is attempted for every entry
whose extension is not protected — for any deletion/sweep outcomes. -/
theorem claim_C5_fonts_protected (deleteOk : String → Bool) (sweepOk : Bool)
    (destinationPath : String) (deletedFiles : List String) (f g : String)
    (hfmem : f ∈ deletedFiles)
    (hfont : isFontFile { workRoot := destinationPath, rel := f } = true)
    (hgmem : g ∈ deletedFiles)
    (hgnot : isFontFile { workRoot := destinationPath, rel := g } = false) :
    f ∈ (cleanupOldFiles deleteOk sweepOk destinationPath deletedFiles).skippedFonts
    ∧ f ∉ (cleanupOldFiles deleteOk sweepOk destinationPath deletedFiles).attempted
    ∧ g ∈ (cleanupOldFiles deleteOk sweepOk destinationPath deletedFiles).attempted := by
  rw [cleanupOldFiles_attempted, cleanupOldFiles_skipped]
  refine ⟨List.mem_filter.mpr ⟨hfmem, hfont⟩, ?_, ?_⟩
  · intro hmem
    have h2 := (List.mem_filter.mp hmem).2
    rw [hfont] at h2
    cases h2
  · exact List.mem_filter.mpr ⟨hgmem, by rw [hgnot]; rfl⟩

/-- Concrete instance of claim C5's hypotheses: one font file (with an
upper-case extension) and one HTML file among the deleted entries. -/
theorem claim_C5_witness :
    ("fonts/a.WOFF" : String) ∈ ["fonts/a.WOFF", "notes/b.html"]
    ∧ isFontFile { workRoot := "/out", rel := "fonts/a.WOFF" } = true
    ∧ ("notes/b.html" : String) ∈ ["fonts/a.WOFF", "notes/b.html"]
    ∧ isFontFile { workRoot := "/out", rel := "notes/b.html" } = false
    ∧ ("fonts/a.WOFF"
        ∈ (cleanupOldFiles (fun _ => true) true "/out"
            ["fonts/a.WOFF", "notes/b.html"]).skippedFonts
      ∧ "fonts/a.WOFF"
          ∉ (cleanupOldFiles (fun _ => true) true "/out"
              ["fonts/a.WOFF", "notes/b.html"]).attempted
      ∧ "notes/b.html"
          ∈ (cleanupOldFiles (fun _ => true) true "/out"
              ["fonts/a.WOFF", "notes/b.html"]).attempted) :=
  ⟨by decide, by decide, by decide, by decide,
   claim_C5_fonts_protected (fun _ => true) true "/out"
     ["fonts/a.WOFF", "notes/b.html"] "fonts/a.WOFF" "notes/b.html"
     (by decide) (by decide) (by decide) (by decide)⟩

/-- Claim C8: the failure of an individual deletion is logged as a warning
and never stops the loop (the attempted/skipped sets are exactly those of a
run where every deletion succeeds), a failed empty-directory sweep is
likewise only a warning, and an export whose build and save succeed returns
its website whatever the deletion and sweep outcomes were. -/
theorem claim_C8_cleanup_nonfatal (deleteOk : String → Bool) (sweepOk : Bool)
    (destinationPath : String) (deletedFiles : List String) (f : String)
    (env : ExportEnv) (exportDest : String) (saveFiles : Bool) (w : WebsiteModel)
    (hfmem : f ∈ deletedFiles)
    (hfont : isFontFile { workRoot := destinationPath, rel := f } = false)
    (hdel : deleteOk (MPath.fullPath { workRoot := destinationPath, rel := f }) = false)
    (hsweep : sweepOk = false)
    (hvalid : validateExportInputs env = none)
    (hbuild : env.buildOutcome = .ok (some w))
    (hsave : env.saveOutcome = .ok ()) :
    (cleanupOldFiles deleteOk sweepOk destinationPath deletedFiles).attempted
      = (cleanupOldFiles (fun _ => true) true destinationPath deletedFiles).attempted
    ∧ (cleanupOldFiles deleteOk sweepOk destinationPath deletedFiles).skippedFonts
      = (cleanupOldFiles (fun _ => true) true destinationPath deletedFiles).skippedFonts
    ∧ ("Warning: Could not delete file "
          ++ MPath.fullPath { workRoot := destinationPath, rel := f })
        ∈ (cleanupOldFiles deleteOk sweepOk destinationPath deletedFiles).warnings
    ∧ ("Warning: Could not remove empty directories" : String)
        ∈ (cleanupOldFiles deleteOk sweepOk destinationPath deletedFiles).warnings
    ∧ (exportFiles env exportDest saveFiles true).result = some w := by
  have hne : deletedFiles.isEmpty = false := by
    cases hdf : deletedFiles with
    | nil => rw [hdf] at hfmem; cases hfmem
    | cons a as => rfl
  have hloopmem := cleanupLoop_warning_mem deleteOk destinationPath deletedFiles f
    hfmem hfont hdel
  refine ⟨?_, ?_, ?_, ?_, ?_⟩
  · rw [cleanupOldFiles_attempted, cleanupOldFiles_attempted]
  · rw [cleanupOldFiles_skipped, cleanupOldFiles_skipped]
  · unfold cleanupOldFiles
    rw [if_neg (by simp [hne]), hsweep]
    simp only [Bool.false_eq_true, if_false, List.mem_append]
    exact Or.inl hloopmem
  · unfold cleanupOldFiles
    rw [if_neg (by simp [hne]), hsweep]
    simp
  · unfold exportFiles
    rw [hvalid, hbuild]
    cases saveFiles
    · rfl
    · rw [hsave]
      rfl

/-- Concrete instance of claim C8's hypotheses: every deletion fails, the
sweep fails, and the export still returns the built website. -/
theorem claim_C8_witness :
    ("a.md" : String) ∈ ["a.md"]
    ∧ isFontFile { workRoot := "/out", rel := "a.md" } = false
    ∧ (fun (_ : String) => false) (MPath.fullPath { workRoot := "/out", rel := "a.md" }) = false
    ∧ (false : Bool) = false
    ∧ validateExportInputs
        { filesCount := 1, destAbsolute := true, destIsDirectory := true,
          destExists := true, createDirOk := true, vaultHasObsidian := true,
          buildOutcome := .ok (some { index := { deletedFiles := ["a.md"] } }),
          deleteOk := fun _ => false, sweepOk := false,
          saveOutcome := .ok () } = none
    ∧ (exportFiles
        { filesCount := 1, destAbsolute := true, destIsDirectory := true,
          destExists := true, createDirOk := true, vaultHasObsidian := true,
          buildOutcome := .ok (some { index := { deletedFiles := ["a.md"] } }),
          deleteOk := fun _ => false, sweepOk := false,
          saveOutcome := .ok () } "/out" true true).result
        = some { index := { deletedFiles := ["a.md"] } } :=
  ⟨by decide, by decide, rfl, rfl, rfl,
   (claim_C8_cleanup_nonfatal (fun _ => false) false "/out" ["a.md"] "a.md"
      { filesCount := 1, destAbsolute := true, destIsDirectory := true,
        destExists := true, createDirOk := true, vaultHasObsidian := true,
        buildOutcome := .ok (some { index := { deletedFiles := ["a.md"] } }),
        deleteOk := fun _ => false, sweepOk := false,
        saveOutcome := .ok () } "/out" true { index := { deletedFiles := ["a.md"] } }
      (by decide) (by decide) rfl rfl rfl rfl rfl).2.2.2.2⟩

/-- Claim C10: every `exportFiles` run that passes input validation calls
`beginBatch` and then `endBatch` exactly once before returning, on every
outcome — success, cancellation, a thrown build error, and a thrown save
error alike. -/
theorem claim_C10_batch_balanced (env : ExportEnv) (destinationPath : String)
    (saveFiles deleteOld : Bool)
    (hvalid : validateExportInputs env = none) :
    (exportFiles env destinationPath saveFiles deleteOld).batchTrace
      = [BatchEvent.beginBatch, BatchEvent.endBatch] := by
  unfold exportFiles
  rw [hvalid]
  cases hb : env.buildOutcome with
  | error e => rfl
  | ok ow =>
      cases ow with
      | none => rfl
      | some w =>
          cases saveFiles
          · rfl
          · cases hs : env.saveOutcome with
            | error e => rfl
            | ok u => rfl

/-- Concrete instance of claim C10's hypotheses: a validated run whose
build throws, which still balances the batch calls. -/
theorem claim_C10_witness :
    validateExportInputs
      { filesCount := 2, destAbsolute := true, destIsDirectory := true,
        destExists := false, createDirOk := true, vaultHasObsidian := true,
        buildOutcome := .error "renderer failed",
        deleteOk := fun _ => true, sweepOk := true,
        saveOutcome := .ok () } = none
    ∧ (exportFiles
        { filesCount := 2, destAbsolute := true, destIsDirectory := true,
          destExists := false, createDirOk := true, vaultHasObsidian := true,
          buildOutcome := .error "renderer failed",
          deleteOk := fun _ => true, sweepOk := true,
          saveOutcome := .ok () } "/site" true true).batchTrace
        = [BatchEvent.beginBatch, BatchEvent.endBatch] :=
  ⟨rfl,
   claim_C10_batch_balanced
     { filesCount := 2, destAbsolute := true, destIsDirectory := true,
       destExists := false, createDirOk := true, vaultHasObsidian := true,
       buildOutcome := .error "renderer failed",
       deleteOk := fun _ => true, sweepOk := true,
       saveOutcome := .ok () } "/site" true true rfl⟩

/-! ## Claim C6 — EnhancedDockerIntegration / runDockerExport

`exportForDocker`'s `try` block is modelled in the `Except` monad: the
awaited steps before and during validation may raise (filesystem errors
surface there), `performExport` has its own `try`/`catch` and never
raises, and the top-level `catch` converts a raised error into a
`success := false` result.  Durations are wall-clock and modelled as 0. -/

/-- `DockerExportResult` (fields of the result object; the optional
validation result is carried when validation ran). -/
structure DockerExportResult where
  success : Bool
  outputPath : String
  duration : Nat
  filesGenerated : Nat
  warnings : List String
  errors : List String
  validationResult : Option ValidationResult
deriving Repr

/-- One Docker export run's environment: the vault filesystem snapshot and
the exception oracles for the awaited steps. -/
structure DockerRunEnv where
  vaultPath : String
  outputPath : String
  vaultFS : Option FSEntry
  /-- exception raised while loading configuration, if any -/
  configThrow : Option String
  /-- exception raised by the filesystem during vault validation, if any -/
  validateThrow : Option String
  /-- exception raised inside `performExport`'s own try block, if any -/
  performThrow : Option String

/-- `EnhancedDockerIntegration.performExport`: its internal `catch` turns a
raised error into a failure result; otherwise the (simulated) export
returns success with 150 files. -/
def performExport (env : DockerRunEnv) : DockerExportResult :=
  match env.performThrow with
  | some e =>
      { success := false, outputPath := env.outputPath, duration := 0,
        filesGenerated := 0, warnings := [], errors := [e],
        validationResult := none }
  | none =>
      { success := true, outputPath := env.outputPath, duration := 0,
        filesGenerated := 150, warnings := [], errors := [],
        validationResult := none }

/-- The `try` block of `EnhancedDockerIntegration.exportForDocker`
(vault-validator.ts file, lines 591-660): load configuration, validate the
vault when requested (returning a failure result when invalid), then
perform the export. -/
def exportForDockerBody (env : DockerRunEnv) (validateVaultOpt : Bool) :
    Except String DockerExportResult :=
  match env.configThrow with
  | some e => .error e
  | none =>
      if validateVaultOpt then
        match env.validateThrow with
        | some e => .error e
        | none =>
            let validationResult := validateVault env.vaultPath env.vaultFS
            if !validationResult.isValid then
              .ok { success := false, outputPath := env.outputPath,
                    duration := 0, filesGenerated := 0,
                    warnings := validationResult.warnings.map (fun w => w.message),
                    errors := validationResult.errors.map (fun e => e.message),
                    validationResult := some validationResult }
            else
              .ok { performExport env with
                    validationResult := some validationResult }
      else
        .ok (performExport env)

/-- `exportForDocker` with its top-level `catch` (lines 661-699): any
exception raised in the body becomes a returned result with
`success := false`; nothing escapes. -/
def exportForDocker (env : DockerRunEnv) (validateVaultOpt : Bool) :
    DockerExportResult :=
  match exportForDockerBody env validateVaultOpt with
  | .ok r => r
  | .error msg =>
      { success := false, outputPath := env.outputPath, duration := 0,
        filesGenerated := 0, warnings := [],
        errors := ["Docker export failed: " ++ msg],
        validationResult := none }

/-- `runDockerExport` (lines 956-975): runs `exportForDocker` with
validation on and exits with `result.success ? 0 : 1`. -/
def runDockerExportExitCode (env : DockerRunEnv) : Nat :=
  if (exportForDocker env true).success then 0 else 1

/-- Claim C6: the CLI exit code is 0 exactly when `exportForDocker`
returned success and 1 otherwise; a raised exception never escapes
`exportForDocker` — it becomes a `success := false` result — and a
validation failure also yields exit code 1. -/
theorem claim_C6_exit_code (env envThrown envInvalid : DockerRunEnv) (msg : String)
    (hthrown : exportForDockerBody envThrown true = .error msg)
    (hc : envInvalid.configThrow = none)
    (hv : envInvalid.validateThrow = none)
    (hinvalid : (validateVault envInvalid.vaultPath envInvalid.vaultFS).isValid = false) :
    (runDockerExportExitCode env = 0 ↔ (exportForDocker env true).success = true)
    ∧ (runDockerExportExitCode env = 1 ↔ (exportForDocker env true).success = false)
    ∧ (exportForDocker envThrown true).success = false
    ∧ runDockerExportExitCode envThrown = 1
    ∧ (exportForDocker envInvalid true).success = false
    ∧ runDockerExportExitCode envInvalid = 1 := by
  have hiff : ∀ e : DockerRunEnv,
      (runDockerExportExitCode e = 0 ↔ (exportForDocker e true).success = true)
      ∧ (runDockerExportExitCode e = 1 ↔ (exportForDocker e true).success = false) := by
    intro e
    unfold runDockerExportExitCode
    by_cases hs : (exportForDocker e true).success <;> simp [hs]
  have hthrownFail : (exportForDocker envThrown true).success = false := by
    unfold exportForDocker
    rw [hthrown]
  have hinvalidFail : (exportForDocker envInvalid true).success = false := by
    unfold exportForDocker exportForDockerBody
    simp [hc, hv, hinvalid]
  exact ⟨(hiff env).1, (hiff env).2, hthrownFail,
         ((hiff envThrown).2).mpr hthrownFail, hinvalidFail,
         ((hiff envInvalid).2).mpr hinvalidFail⟩

/-- Concrete instance of claim C6's hypotheses: one run whose configuration
step throws, and one whose vault path does not exist (validation fails). -/
theorem claim_C6_witness :
    exportForDockerBody
      { vaultPath := "/vault", outputPath := "/output", vaultFS := none,
        configThrow := some "boom", validateThrow := none,
        performThrow := none } true = .error "boom"
    ∧ (validateVault "/vault" none).isValid = false
    ∧ (runDockerExportExitCode
        { vaultPath := "/vault", outputPath := "/output", vaultFS := none,
          configThrow := some "boom", validateThrow := none,
          performThrow := none } = 1
      ∧ runDockerExportExitCode
          { vaultPath := "/vault", outputPath := "/output", vaultFS := none,
            configThrow := none, validateThrow := none,
            performThrow := none } = 1) :=
  ⟨rfl, rfl,
   (claim_C6_exit_code
      { vaultPath := "/vault", outputPath := "/output", vaultFS := none,
        configThrow := none, validateThrow := none, performThrow := none }
      { vaultPath := "/vault", outputPath := "/output", vaultFS := none,
        configThrow := some "boom", validateThrow := none, performThrow := none }
      { vaultPath := "/vault", outputPath := "/output", vaultFS := none,
        configThrow := none, validateThrow := none, performThrow := none }
      "boom" rfl rfl rfl rfl).2.2.2.1,
   (claim_C6_exit_code
      { vaultPath := "/vault", outputPath := "/output", vaultFS := none,
        configThrow := none, validateThrow := none, performThrow := none }
      { vaultPath := "/vault", outputPath := "/output", vaultFS := none,
        configThrow := some "boom", validateThrow := none, performThrow := none }
      { vaultPath := "/vault", outputPath := "/output", vaultFS := none,
        configThrow := none, validateThrow := none, performThrow := none }
      "boom" rfl rfl rfl rfl).2.2.2.2.2⟩
